import Mathlib

/-!
Verification development for the difference area chart visual
(src/Clients/CustomVisuals/visuals/bivariateAreaChart/differenceAreaChart.ts).

The TypeScript source is shallowly embedded: host-provided objects whose
fields may be null or undefined become structures with Option fields,
JavaScript property accesses that can throw a TypeError are modelled in the
Except monad, and numbers are rationals.  Helper functions that live
outside the embedded file (valueFormatter, DataRoleHelper, DataViewObjects,
TooltipBuilder, SelectionId) are modelled from the specification and marked
as such in their doc comments.
-/

set_option autoImplicit false

namespace DifferenceAreaChart

/-- A JavaScript numeric cell: none models null or undefined. -/
abbrev JsNum := Option ℚ

/-- Metadata of a dataset column (DataViewMetadataColumn): display name,
format string, column type and the set of data roles the column carries. -/
structure DataViewMetadataColumn where
  displayName : String := ""
  format : Option String := none
  colType : Option String := none
  roles : List String := []
  deriving Repr, DecidableEq

/-- A measure column inside a series group (DataViewValueColumn). -/
structure DataViewValueColumn where
  source : Option DataViewMetadataColumn := none
  values : Option (List JsNum) := none
  deriving Repr, DecidableEq

/-- One series group of value columns (DataViewValueColumnGroup). -/
structure DataViewValueColumnGroup where
  values : Option (List DataViewValueColumn) := none
  deriving Repr, DecidableEq

/-- The values section of a categorical data view.  The grouped field holds
the result of the host-side grouped() call that groups value columns by
series. -/
structure DataViewValueColumns where
  grouped : List DataViewValueColumnGroup := []
  deriving Repr, DecidableEq

/-- A category column (DataViewCategoryColumn): its cells are strings that
may themselves be null. -/
structure DataViewCategoryColumn where
  source : Option DataViewMetadataColumn := none
  values : Option (List (Option String)) := none
  identity : Option (List String) := none
  deriving Repr, DecidableEq

/-- The categorical section of a data view. -/
structure DataViewCategorical where
  categories : Option (List DataViewCategoryColumn) := none
  values : Option DataViewValueColumns := none
  deriving Repr, DecidableEq

/-- A property value stored in the host property store or reflected back to
the property pane. -/
inductive PropVal where
  | boolean : Bool → PropVal
  | number : ℚ → PropVal
  | fill : String → PropVal
  | strv : String → PropVal
  deriving Repr, DecidableEq

/-- The host property store (DataViewObjects): entries keyed by object name
and property name. -/
abbrev DataViewObjects := List (String × String × PropVal)

/-- Data view metadata: only the objects store is read by the visual. -/
structure DataViewMetadata where
  objects : Option DataViewObjects := none
  deriving Repr, DecidableEq

/-- A host data view (DataView): categorical section plus metadata, either
of which may be absent. -/
structure DataView where
  categorical : Option DataViewCategorical := none
  metadata : Option DataViewMetadata := none
  deriving Repr, DecidableEq

/-- Outline settings of the chart (DifferenceAreaChartOutlineSettings). -/
structure DifferenceAreaChartOutlineSettings where
  showOutline : Bool
  size : ℚ
  deriving Repr, DecidableEq

/-- Color settings of the chart (DifferenceAreaChartColorSettings). -/
structure DifferenceAreaChartColorSettings where
  highColor : String
  lowColor : String
  deriving Repr, DecidableEq

/-- Resolved chart settings (DifferenceAreaChartSettings). -/
structure DifferenceAreaChartSettings where
  outline : DifferenceAreaChartOutlineSettings
  colors : DifferenceAreaChartColorSettings
  deriving Repr, DecidableEq

/-- A tooltip row shown for a data point (TooltipDataItem). -/
structure TooltipDataItem where
  displayName : String
  value : String
  deriving Repr, DecidableEq

/-- A chart data point (DifferenceAreaChartDataPoint). -/
structure DifferenceAreaChartDataPoint where
  low : JsNum
  high : JsNum
  categoryIndex : ℕ
  categoryValue : Option String
  tooltipInfo : List TooltipDataItem
  deriving Repr, DecidableEq

/-- Selection identity of the view model.  Modelled from the spec:
SelectionId is host code outside the embedded file; the spec says the
identity is derived from the first category identity when present and is a
well-defined null identity otherwise. -/
inductive Selector where
  | withId : Option String → Selector
  | nullSelector : Selector
  deriving Repr, DecidableEq

/-- The render-ready view model (DifferenceAreaChartViewModel). -/
structure DifferenceAreaChartViewModel where
  settings : DifferenceAreaChartSettings
  data : List DifferenceAreaChartDataPoint
  selector : Selector
  deriving Repr, DecidableEq

/-- Modelled from the spec: valueFormatter.format (null) produces the
default null-value label used for the synthetic category. -/
def formatNullValue : String := "(Blank)"

/-- A formatter instance created by valueFormatter.create.  Modelled from
the spec: the builder formats each value with the measure column format and
type when declared, so the instance records the two option fields it was
created from. -/
structure ValueFormatterInst where
  fmt : Option String
  columnType : Option String
  deriving Repr, DecidableEq

/-- Modelled from the spec: valueFormatter.create builds a formatter from a
format string and a column type, either of which may be absent. -/
def valueFormatterCreate (fmt columnType : Option String) : ValueFormatterInst :=
  { fmt := fmt, columnType := columnType }

/-- Text of a numeric cell when formatted. -/
def jsNumText (v : JsNum) : String :=
  match v with
  | none => formatNullValue
  | some q => toString q

/-- Modelled from the spec: applying a formatter uses the declared format
string when present and falls back to a generic formatter otherwise. -/
def applyFormatter (f : ValueFormatterInst) (v : JsNum) : String :=
  match f.fmt with
  | some s => s ++ " " ++ jsNumText v
  | none => jsNumText v

/-- Modelled from the spec: TooltipBuilder.createTooltipInfo pairs the
category label with the formatted measure values, tagged with the source
column metadata for display name lookup. -/
def createTooltipInfo (categoryColumn : Option DataViewCategoryColumn)
    (categoryValue : Option String)
    (seriesData : List (String × Option DataViewValueColumn)) : List TooltipDataItem :=
  { displayName :=
      ((categoryColumn.bind DataViewCategoryColumn.source).map
        DataViewMetadataColumn.displayName).getD ""
    value := categoryValue.getD "" } ::
  seriesData.map (fun sd =>
    { displayName :=
        ((sd.2.bind DataViewValueColumn.source).map
          DataViewMetadataColumn.displayName).getD ""
      value := sd.1 })

/-- Whether a value column carries the given role (value and value.source
and value.source.roles and value.source.roles [roleName]). -/
def hasRole (col : DataViewValueColumn) (role : String) : Bool :=
  (col.source.map (fun s => s.roles.contains role)).getD false

/-- Index of the first column carrying the role, or -1. -/
def findRoleIdx (cols : List DataViewValueColumn) (role : String) : Int :=
  match cols with
  | [] => -1
  | col :: rest =>
    if hasRole col role then 0
    else
      let r := findRoleIdx rest role
      if r < 0 then -1 else r + 1

/-- Modelled from the spec: DataRoleHelper.getMeasureIndexOfRole is host
code outside the embedded file; the spec says the builder locates the
column index tagged with the role by declared role metadata, searching the
grouped value columns of the first series group, and that the lookup can
fail (result -1). -/
def getMeasureIndexOfRole (grouped : List DataViewValueColumnGroup) (role : String) : Int :=
  match grouped with
  | [] => -1
  | g :: _ =>
    match g.values with
    | none => -1
    | some cols => findRoleIdx cols role

/-- The synthetic category column used when the dataset has no category
column: a single null-formatted value, no source, no identity. -/
def fallbackCategoryColumn : DataViewCategoryColumn :=
  { source := none, values := some [some formatNullValue], identity := none }

/-- The local categories variable of parseToDataPoints: categories [0] when
a nonempty categories array is present, the synthetic column otherwise. -/
def categoriesVarOf (c : DataViewCategorical) : DataViewCategoryColumn :=
  match c.categories with
  | some (c0 :: _) => c0
  | some [] => fallbackCategoryColumn
  | none => fallbackCategoryColumn

/-- The local grouped variable of parseToDataPoints: values.grouped () when
the values section is present, the empty array otherwise. -/
def groupedOf (c : DataViewCategorical) : List DataViewValueColumnGroup :=
  match c.values with
  | some v => v.grouped
  | none => []

/-- The numeric value read for a measure at a category position:
measure and measure.values present gives measure.values [categoryIndex]
(undefined when out of range), and 0 otherwise. -/
def jsMeasureValue (measure : Option DataViewValueColumn) (categoryIndex : ℕ) : JsNum :=
  match measure with
  | some m =>
    match m.values with
    | some vs => (vs.get? categoryIndex).join
    | none => some 0
  | none => some 0

/-- One loop body iteration of parseToDataPoints: builds the data point at
the given category index for the given series group values.  JavaScript
property accesses on possibly undefined objects are modelled as Except
errors, in source evaluation order: categories.values for the category
value, grouping.values for the measures, dataViewCategorical.categories [0]
for the tooltip category column, then the unguarded lowMeasure.source.format
read used to create the low formatter. -/
def mkDataPoint (c : DataViewCategorical) (catVar : DataViewCategoryColumn)
    (seriesValues : Option (List DataViewValueColumn))
    (lowIdx highIdx categoryIndex : ℕ) :
    Except String DifferenceAreaChartDataPoint :=
  match catVar.values with
  | none => Except.error "TypeError: Cannot read index of undefined categories values"
  | some catVals =>
    let categoryValue : Option String := (catVals.get? categoryIndex).join
    match seriesValues with
    | none => Except.error "TypeError: Cannot read index of undefined grouping values"
    | some seriesVals =>
      let lowMeasure : Option DataViewValueColumn := seriesVals.get? lowIdx
      let highMeasure : Option DataViewValueColumn := seriesVals.get? highIdx
      let lowValue : JsNum := jsMeasureValue lowMeasure categoryIndex
      let highValue : JsNum := jsMeasureValue highMeasure categoryIndex
      match c.categories with
      | none => Except.error "TypeError: Cannot read 0 of undefined categories"
      | some cs =>
        match lowMeasure with
        | none => Except.error "TypeError: Cannot read source of undefined"
        | some lm =>
          match lm.source with
          | none => Except.error "TypeError: Cannot read format of undefined"
          | some lmSource =>
            let formatterLow := valueFormatterCreate lmSource.format lmSource.colType
            let formatterHigh := valueFormatterCreate
              ((highMeasure.bind DataViewValueColumn.source).bind DataViewMetadataColumn.format)
              ((highMeasure.bind DataViewValueColumn.source).bind DataViewMetadataColumn.colType)
            let lowValueFormatted := applyFormatter formatterLow lowValue
            let highValueFormatted := applyFormatter formatterHigh highValue
            let tooltipInfo := createTooltipInfo (cs.get? 0) categoryValue
              [(lowValueFormatted, lowMeasure), (highValueFormatted, highMeasure)]
            Except.ok
              { low := lowValue
                high := highValue
                categoryIndex := categoryIndex
                categoryValue := categoryValue
                tooltipInfo := tooltipInfo }

/-- The inner category loop of parseToDataPoints: data points for category
indices i, i+1, ..., i+n-1 in order, stopping at the first error. -/
def pointsFrom (f : ℕ → Except String DifferenceAreaChartDataPoint) (i : ℕ) :
    ℕ → Except String (List DifferenceAreaChartDataPoint)
  | 0 => Except.ok []
  | n + 1 =>
    match f i with
    | Except.error e => Except.error e
    | Except.ok p =>
      match pointsFrom f (i + 1) n with
      | Except.error e => Except.error e
      | Except.ok ps => Except.ok (p :: ps)

/-- The length of the inner loop bound of parseToDataPoints:
dataViewCategorical.categories [seriesIndex].values.length, each property
access modelled as a possible TypeError. -/
def seriesCatLen (c : DataViewCategorical) (seriesIndex : ℕ) : Except String ℕ :=
  match c.categories with
  | none => Except.error "TypeError: Cannot read index of undefined categories"
  | some cs =>
    match cs.get? seriesIndex with
    | none => Except.error "TypeError: Cannot read values of undefined"
    | some col =>
      match col.values with
      | none => Except.error "TypeError: Cannot read length of undefined"
      | some vs => Except.ok vs.length

/-- The outer series loop of parseToDataPoints: for each series group, run
the inner category loop over the loop bound read from the category column
at the series index, concatenating the points in order. -/
def seriesLoop (c : DataViewCategorical) (catVar : DataViewCategoryColumn)
    (lowIdx highIdx : ℕ) :
    ℕ → List DataViewValueColumnGroup → Except String (List DifferenceAreaChartDataPoint)
  | _, [] => Except.ok []
  | seriesIndex, g :: rest =>
    match seriesCatLen c seriesIndex with
    | Except.error e => Except.error e
    | Except.ok len =>
      match pointsFrom (mkDataPoint c catVar g.values lowIdx highIdx) 0 len with
      | Except.error e => Except.error e
      | Except.ok pts =>
        match seriesLoop c catVar lowIdx highIdx (seriesIndex + 1) rest with
        | Except.error e => Except.error e
        | Except.ok more => Except.ok (pts ++ more)

/-- DifferenceAreaChart.parseToDataPoints: when both role lookups succeed,
run the series and category loops; otherwise the data sequence stays
empty. -/
def parseToDataPoints (c : DataViewCategorical) :
    Except String (List DifferenceAreaChartDataPoint) :=
  if 0 ≤ getMeasureIndexOfRole (groupedOf c) "Low" ∧
     0 ≤ getMeasureIndexOfRole (groupedOf c) "High" then
    seriesLoop c (categoriesVarOf c)
      (getMeasureIndexOfRole (groupedOf c) "Low").toNat
      (getMeasureIndexOfRole (groupedOf c) "High").toNat
      0 (groupedOf c)
  else Except.ok []

/-- DifferenceAreaChart.isDataViewValid: the dataView and its categorical
section, categories array, metadata, first category column and values
section must all be present, checked in source order. -/
def isDataViewValid (dv : Option DataView) : Bool :=
  match dv with
  | none => false
  | some d =>
    match d.categorical with
    | none => false
    | some cat =>
      match cat.categories with
      | none => false
      | some cs =>
        match d.metadata with
        | none => false
        | some _ =>
          match cs.get? 0 with
          | none => false
          | some _ =>
            match cat.values with
            | none => false
            | some _ => true

/-- DifferenceAreaChart.getObjectsFromDataView: dataView and
dataView.metadata and dataView.metadata.objects. -/
def getObjectsFromDataView (dv : Option DataView) : Option DataViewObjects :=
  match dv with
  | none => none
  | some d =>
    match d.metadata with
    | none => none
    | some md => md.objects

/-- First entry of the property store under the given object and property
names. -/
def lookupObjectProp (objects : DataViewObjects) (objectName propertyName : String) :
    Option PropVal :=
  match objects with
  | [] => none
  | (o, p, v) :: rest =>
    if o = objectName ∧ p = propertyName then some v
    else lookupObjectProp rest objectName propertyName

/-- Modelled from the spec: DataViewObjects.getValue is host code outside
the embedded file; the spec says settings resolution overlays the boolean
value found in the property store when present and keeps the default
otherwise. -/
def getValueBool (objects : DataViewObjects) (objectName propertyName : String)
    (defaultValue : Bool) : Bool :=
  match lookupObjectProp objects objectName propertyName with
  | some (PropVal.boolean b) => b
  | _ => defaultValue

/-- Modelled from the spec: DataViewObjects.getValue for a numeric
property, default when absent. -/
def getValueNum (objects : DataViewObjects) (objectName propertyName : String)
    (defaultValue : ℚ) : ℚ :=
  match lookupObjectProp objects objectName propertyName with
  | some (PropVal.number q) => q
  | _ => defaultValue

/-- Modelled from the spec: DataViewObjects.getFillColor extracts the solid
fill color stored for the property, default when absent. -/
def getFillColor (objects : DataViewObjects) (objectName propertyName : String)
    (defaultColor : String) : String :=
  match lookupObjectProp objects objectName propertyName with
  | some (PropVal.fill c) => c
  | _ => defaultColor

/-- DifferenceAreaChart.getDefaultColorSettings. -/
def getDefaultColorSettings : DifferenceAreaChartColorSettings :=
  { highColor := "Green", lowColor := "Red" }

/-- DifferenceAreaChart.getDefaultOutlineSettings. -/
def getDefaultOutlineSettings : DifferenceAreaChartOutlineSettings :=
  { showOutline := true, size := 2 }

/-- DifferenceAreaChart.getDefaultChartSettings. -/
def getDefaultChartSettings : DifferenceAreaChartSettings :=
  { outline := getDefaultOutlineSettings, colors := getDefaultColorSettings }

/-- DifferenceAreaChart.parseSettings: start from the defaults and, when
the dataView carries a property store, overlay each of the four recognized
properties.  The function always returns a settings object; the Option
result type mirrors the nullable reference type the caller guards
against. -/
def parseSettings (dv : Option DataView) : Option DifferenceAreaChartSettings :=
  let ds := getDefaultChartSettings
  match getObjectsFromDataView dv with
  | none => some ds
  | some objects =>
    some
      { outline :=
          { showOutline := getValueBool objects "outline" "show" ds.outline.showOutline
            size := getValueNum objects "outline" "size" ds.outline.size }
        colors :=
          { highColor := getFillColor objects "colors" "highColor" ds.colors.highColor
            lowColor := getFillColor objects "colors" "lowColor" ds.colors.lowColor } }

/-- DifferenceAreaChart.convertToViewModel: undefined for a missing or
structurally invalid dataView, otherwise the view model with the resolved
settings, the parsed data points and the selection identity.  The
destructuring steps mirror the source property accesses, which cannot fail
once the validity check has passed; the data point parsing can raise a
modelled TypeError. -/
def convertToViewModel (dv : Option DataView) :
    Except String (Option DifferenceAreaChartViewModel) :=
  match dv with
  | none => Except.ok none
  | some dataView =>
    if isDataViewValid (some dataView) then
      match parseSettings (some dataView) with
      | none => Except.ok none
      | some settings =>
        match dataView.categorical with
        | none => Except.error "TypeError: Cannot read categories of undefined"
        | some cat =>
          match cat.categories with
          | none => Except.error "TypeError: Cannot read 0 of undefined categories"
          | some cs =>
            match cs.get? 0 with
            | none => Except.error "TypeError: Cannot read identity of undefined"
            | some c0 =>
              let selector : Selector :=
                match c0.identity with
                | some ids => Selector.withId (ids.get? 0)
                | none => Selector.nullSelector
              match parseToDataPoints cat with
              | Except.error e => Except.error e
              | Except.ok pts =>
                Except.ok (some { settings := settings, data := pts, selector := selector })
    else Except.ok none

/-- Margins (IMargin). -/
structure IMargin where
  left : ℚ
  right : ℚ
  bottom : ℚ
  top : ℚ
  deriving Repr, DecidableEq

/-- The fixed default margins of the visual. -/
def chartMargin : IMargin := { left := 45, right := 30, bottom := 10, top := 10 }

/-- A viewport (IViewport). -/
structure IViewport where
  width : ℚ
  height : ℚ
  deriving Repr, DecidableEq

/-- DifferenceAreaChartGeometry: the margin it was constructed with and the
stored viewport with no margins applied. -/
structure Geometry where
  margin : IMargin
  viewportNoMargins : IViewport
  deriving Repr, DecidableEq

/-- Geometry.getViewport: the stored viewport with margins applied. -/
def Geometry.getViewport (g : Geometry) : IViewport :=
  { width := g.viewportNoMargins.width - g.margin.left - g.margin.right
    height := g.viewportNoMargins.height - g.margin.top - g.margin.bottom }

/-- Geometry.isValid: both margin-adjusted dimensions strictly positive. -/
def Geometry.isValid (g : Geometry) : Bool :=
  decide (0 < g.getViewport.width) && decide (0 < g.getViewport.height)

/-- The geometry the visual holds: constructed with the fixed margins and
the given viewport. -/
def chartGeometry (vp : IViewport) : Geometry :=
  { margin := chartMargin, viewportNoMargins := vp }

/-- Outcome of a render call: the two early returns, or drawing. -/
inductive RenderOutcome where
  | skippedNoViewModel
  | skippedInvalidGeometry
  | drawn
  deriving Repr, DecidableEq

/-- DifferenceAreaChart.render: return without drawing when the view model
is absent or the geometry is invalid, draw otherwise. -/
def render (viewModel : Option DifferenceAreaChartViewModel) (g : Geometry) : RenderOutcome :=
  match viewModel with
  | none => RenderOutcome.skippedNoViewModel
  | some _ =>
    if g.isValid then RenderOutcome.drawn else RenderOutcome.skippedInvalidGeometry

/-- The options object passed by the host to update. -/
structure VisualUpdateOptions where
  dataViews : Option (List DataView)
  viewport : IViewport
  deriving Repr, DecidableEq

/-- Normal outcome of update: either render was invoked on the new view
model, or the plot area was cleared. -/
inductive UpdateResult where
  | rendered : RenderOutcome → UpdateResult
  | cleared
  deriving Repr, DecidableEq

/-- DifferenceAreaChart.update.  The source guard reads
options.dataViews && with a conjunction: when dataViews is present the
conjunction is false and the body runs; when dataViews is absent the guard
itself evaluates options.dataViews [0] on undefined and throws a TypeError,
modelled as an Except error. -/
def update (options : VisualUpdateOptions) : Except String UpdateResult :=
  match options.dataViews with
  | none => Except.error "TypeError: Cannot read 0 of undefined dataViews"
  | some dvs =>
    let dataView : Option DataView := dvs.get? 0
    let g : Geometry := chartGeometry options.viewport
    match convertToViewModel dataView with
    | Except.error e => Except.error e
    | Except.ok (some vm) => Except.ok (UpdateResult.rendered (render (some vm) g))
    | Except.ok none => Except.ok UpdateResult.cleared

/-- A property pane descriptor (VisualObjectInstance). -/
structure VisualObjectInstance where
  objectName : String
  properties : List (String × PropVal)
  deriving Repr, DecidableEq

/-- DifferenceAreaChart.enumerateOutlineOptions. -/
def enumerateOutlineOptions (model : DifferenceAreaChartViewModel) :
    List VisualObjectInstance :=
  [{ objectName := "outline"
     properties :=
       [("show", PropVal.boolean model.settings.outline.showOutline),
        ("size", PropVal.number model.settings.outline.size)] }]

/-- DifferenceAreaChart.enumerateColorOptions. -/
def enumerateColorOptions (model : DifferenceAreaChartViewModel) :
    List VisualObjectInstance :=
  [{ objectName := "colors"
     properties :=
       [("lowColor", PropVal.strv model.settings.colors.lowColor),
        ("highColor", PropVal.strv model.settings.colors.highColor)] }]

/-- DifferenceAreaChart.enumerateObjectInstances: nothing when no view
model is stored, the outline or colors descriptor for those object names,
nothing for any other name. -/
def enumerateObjectInstances (viewModel : Option DifferenceAreaChartViewModel)
    (objectName : String) : Option (List VisualObjectInstance) :=
  match viewModel with
  | none => none
  | some d =>
    if objectName = "outline" then some (enumerateOutlineOptions d)
    else if objectName = "colors" then some (enumerateColorOptions d)
    else none

/-- JavaScript Math.round for finite rationals: floor of x + 1/2. -/
def jsRound (q : ℚ) : ℤ := Int.floor (q + 1 / 2)

/-- DifferenceAreaChart.getClosestDataPoint: round the fractional domain
position and index the point array; a negative or out-of-range rounded
index yields undefined. -/
def getClosestDataPoint (xIndex : ℚ) (points : List DifferenceAreaChartDataPoint) :
    Option DifferenceAreaChartDataPoint :=
  let closestValueCatIndex : ℤ := jsRound xIndex
  if closestValueCatIndex < 0 then none
  else points.get? closestValueCatIndex.toNat

/-- The tooltip delegate wired to the plot overlay: when a data point is
found at the rounded position, the hover line is drawn (first component)
and its tooltip payload is returned; otherwise nothing is drawn and no
payload is produced. -/
def tooltipInfoDelegate (xIndex : ℚ) (vm : DifferenceAreaChartViewModel) :
    Bool × Option (List TooltipDataItem) :=
  match getClosestDataPoint xIndex vm.data with
  | some dp => (true, some dp.tooltipInfo)
  | none => (false, none)

/-! Concrete sample inputs used by witnesses and counterexamples. -/

/-- A low measure column carrying the Low role. -/
def sampleLowColumn : DataViewValueColumn :=
  { source := some { displayName := "Low", roles := ["Low"] }
    values := some [some 1, some 2] }

/-- A high measure column carrying the High role. -/
def sampleHighColumn : DataViewValueColumn :=
  { source := some { displayName := "High", roles := ["High"] }
    values := some [some 3, some 4] }

/-- A series group holding the low and high columns. -/
def sampleGroup : DataViewValueColumnGroup :=
  { values := some [sampleLowColumn, sampleHighColumn] }

/-- A category column with two category values. -/
def sampleCategoryColumn : DataViewCategoryColumn :=
  { values := some [some "A", some "B"] }

/-- A well-formed categorical section with one series group. -/
def sampleCat : DataViewCategorical :=
  { categories := some [sampleCategoryColumn]
    values := some { grouped := [sampleGroup] } }

/-- A well-formed dataView around the sample categorical section. -/
def sampleDataView : DataView :=
  { categorical := some sampleCat, metadata := some { objects := none } }

/-- A categorical section identical to the sample but with a second series
group: structurally valid and carrying both roles, yet the loop bound of
the second series iteration reads categories [1], which is undefined. -/
def twoGroupCat : DataViewCategorical :=
  { categories := some [sampleCategoryColumn]
    values := some { grouped := [sampleGroup, { values := none }] } }

/-- The two-group categorical section wrapped in a valid dataView. -/
def twoGroupDataView : DataView :=
  { categorical := some twoGroupCat, metadata := some { objects := none } }

/-- A categorical section with two category columns and a second series
group whose values array is empty: the second series iteration finds no
low measure column at the low role index, defaults its value to 0, and
then reads lowMeasure.source on undefined. -/
def missingLowCat : DataViewCategorical :=
  { categories := some [sampleCategoryColumn, { values := some [some "C"] }]
    values := some { grouped := [sampleGroup, { values := some [] }] } }

/-- A categorical section whose values carry neither the Low nor the High
role: a category column but no series groups. -/
def noRolesCat : DataViewCategorical :=
  { categories := some [sampleCategoryColumn], values := some { grouped := [] } }

/-- A minimal valid dataView with no series groups: the role lookups fail
and the view model carries an empty data sequence. -/
def emptyRolesDataView : DataView :=
  { categorical := some noRolesCat
    metadata := some { objects := none } }

/-- The view model built from the empty-roles dataView. -/
def emptyRolesViewModel : DifferenceAreaChartViewModel :=
  { settings := getDefaultChartSettings
    data := []
    selector := Selector.nullSelector }

example : (parseToDataPoints sampleCat).isOk = true := by decide
example : parseToDataPoints twoGroupCat =
    Except.error "TypeError: Cannot read values of undefined" := by rfl
example : parseToDataPoints missingLowCat =
    Except.error "TypeError: Cannot read source of undefined" := by rfl
example : update { dataViews := none, viewport := { width := 500, height := 500 } } =
    Except.error "TypeError: Cannot read 0 of undefined dataViews" := by rfl
example : update { dataViews := some [], viewport := { width := 500, height := 500 } } =
    Except.ok UpdateResult.cleared := by rfl
example : convertToViewModel (some emptyRolesDataView) =
    Except.ok (some emptyRolesViewModel) := by rfl
example : isDataViewValid (some twoGroupDataView) = true := by decide
example : convertToViewModel (some twoGroupDataView) =
    Except.error "TypeError: Cannot read values of undefined" := by rfl

/-! Supporting lemmas. -/

/-- The resolved settings of a dataView: parseSettings always produces a
settings object, so the default is never taken. -/
def resolvedSettings (dv : Option DataView) : DifferenceAreaChartSettings :=
  (parseSettings dv).getD getDefaultChartSettings

/-- Property-store lookup through a dataView. -/
def lookupProp (dv : Option DataView) (objectName propertyName : String) : Option PropVal :=
  match getObjectsFromDataView dv with
  | none => none
  | some objs => lookupObjectProp objs objectName propertyName

theorem parseSettings_isSome (dv : Option DataView) : (parseSettings dv).isSome = true := by
  unfold parseSettings
  cases h : getObjectsFromDataView dv <;> rfl

theorem parseSettings_eq (dv : Option DataView) :
    parseSettings dv = some (resolvedSettings dv) := by
  have h := parseSettings_isSome dv
  unfold resolvedSettings
  cases hs : parseSettings dv with
  | none => rw [hs] at h; exact absurd h (by simp)
  | some s => simp

theorem isDataViewValid_elim (d : DataView) (h : isDataViewValid (some d) = true) :
    ∃ cat cs c0, d.categorical = some cat ∧ cat.categories = some cs ∧
      cs.get? 0 = some c0 ∧ d.metadata.isSome = true ∧ cat.values.isSome = true := by
  simp only [isDataViewValid] at h
  cases hcat : d.categorical with
  | none => simp only [hcat] at h; exact absurd h (by simp)
  | some cat =>
  simp only [hcat] at h
  cases hcs : cat.categories with
  | none => simp only [hcs] at h; exact absurd h (by simp)
  | some cs =>
  simp only [hcs] at h
  cases hmd : d.metadata with
  | none => simp only [hmd] at h; exact absurd h (by simp)
  | some md =>
  simp only [hmd] at h
  cases hc0 : cs.get? 0 with
  | none => simp only [hc0] at h; exact absurd h (by simp)
  | some c0 =>
  simp only [hc0] at h
  cases hval : cat.values with
  | none => simp only [hval] at h; exact absurd h (by simp)
  | some vals =>
  exact ⟨cat, cs, c0, rfl, hcs, hc0, rfl, by simp [hval]⟩

theorem convertToViewModel_invalid (d : DataView)
    (hv : isDataViewValid (some d) = false) :
    convertToViewModel (some d) = Except.ok none := by
  unfold convertToViewModel
  simp [hv]

theorem convertToViewModel_eq_valid (d : DataView) (cat : DataViewCategorical)
    (cs : List DataViewCategoryColumn) (c0 : DataViewCategoryColumn)
    (hv : isDataViewValid (some d) = true)
    (hcat : d.categorical = some cat) (hcs : cat.categories = some cs)
    (hc0 : cs.get? 0 = some c0) :
    convertToViewModel (some d) =
      match parseToDataPoints cat with
      | Except.error e => Except.error e
      | Except.ok pts =>
        Except.ok (some
          { settings := resolvedSettings (some d)
            data := pts
            selector :=
              match c0.identity with
              | some ids => Selector.withId (ids.get? 0)
              | none => Selector.nullSelector }) := by
  unfold convertToViewModel
  simp only [hv, if_true, parseSettings_eq, hcat, hcs, hc0]

theorem viewModel_settings_eq (dv : Option DataView) (vm : DifferenceAreaChartViewModel)
    (h : convertToViewModel dv = Except.ok (some vm)) :
    vm.settings = resolvedSettings dv := by
  cases dv with
  | none => simp [convertToViewModel] at h
  | some d =>
    by_cases hv : isDataViewValid (some d) = true
    · obtain ⟨cat, cs, c0, hcat, hcs, hc0, _, _⟩ := isDataViewValid_elim d hv
      rw [convertToViewModel_eq_valid d cat cs c0 hv hcat hcs hc0] at h
      cases hpts : parseToDataPoints cat with
      | error e => rw [hpts] at h; exact absurd h (by simp)
      | ok pts =>
        rw [hpts] at h
        simp only [Except.ok.injEq, Option.some.injEq] at h
        rw [← h]
    · rw [convertToViewModel_invalid d (by simpa using hv)] at h
      exact absurd h (by simp)

/-- C3: when the role index lookup fails for the Low role or for the High
role, parseToDataPoints returns the empty data sequence, whatever else the
dataset contains, and raises no error. -/
theorem claim3_empty_when_role_missing (c : DataViewCategorical)
    (h : getMeasureIndexOfRole (groupedOf c) "Low" < 0 ∨
         getMeasureIndexOfRole (groupedOf c) "High" < 0) :
    parseToDataPoints c = Except.ok [] := by
  unfold parseToDataPoints
  rw [if_neg]
  rintro ⟨h1, h2⟩
  rcases h with h | h <;> omega

/-- C3 witness: a dataset with a category column but no value groups fails
both role lookups and yields the empty, error-free data sequence. -/
theorem claim3_witness :
    getMeasureIndexOfRole (groupedOf noRolesCat) "Low" < 0 ∧
    parseToDataPoints noRolesCat = Except.ok [] :=
  ⟨by decide, claim3_empty_when_role_missing noRolesCat (Or.inl (by decide))⟩

theorem convert_ok_none_iff (dv : Option DataView) :
    convertToViewModel dv = Except.ok none ↔ isDataViewValid dv = false := by
  constructor
  · intro h
    cases dv with
    | none => rfl
    | some d =>
      by_cases hv : isDataViewValid (some d) = true
      · obtain ⟨cat, cs, c0, hcat, hcs, hc0, _, _⟩ := isDataViewValid_elim d hv
        rw [convertToViewModel_eq_valid d cat cs c0 hv hcat hcs hc0] at h
        cases hpts : parseToDataPoints cat with
        | error e => rw [hpts] at h; exact absurd h (by simp)
        | ok pts => rw [hpts] at h; exact absurd h (by simp)
      · simpa using hv
  · intro h
    cases dv with
    | none => rfl
    | some d => exact convertToViewModel_invalid d h

/-- C10: parseSettings produces a settings object for every dataView, so
the null-settings guard in convertToViewModel never fires, and the view
model is the absent result exactly when the dataset is structurally
invalid. -/
theorem claim10_settings_never_null (dv : Option DataView) :
    (parseSettings dv).isSome = true ∧
    (convertToViewModel dv = Except.ok none ↔ isDataViewValid dv = false) :=
  ⟨parseSettings_isSome dv, convert_ok_none_iff dv⟩

/-- C10 witness: the theorem instantiated at the absent dataView. -/
theorem claim10_witness :
    (parseSettings none).isSome = true ∧
    (convertToViewModel none = Except.ok none ↔ isDataViewValid none = false) :=
  claim10_settings_never_null none

/-- C2: the update guard is a conjunction, so a host payload whose
dataViews field is absent makes update evaluate an index on undefined and
propagate a TypeError to the host instead of returning normally; a present
but empty dataViews array, by contrast, clears the plot area normally. -/
theorem claim2_update_throws_on_missing_dataViews :
    update { dataViews := none, viewport := { width := 500, height := 500 } } =
      Except.error "TypeError: Cannot read 0 of undefined dataViews" ∧
    update { dataViews := some [], viewport := { width := 500, height := 500 } } =
      Except.ok UpdateResult.cleared :=
  ⟨rfl, rfl⟩

/-- C5: the loop body defaults a missing low measure value to 0, but then
creates the low formatter from the unguarded lowMeasure.source.format read,
so a series group without a low measure column makes point construction
throw a TypeError instead of emitting a zero-valued point; the dataset
below is structurally valid, carries both roles in its first group, and
reaches the faulting read in its second group. -/
theorem claim5_low_measure_throw_eval :
    jsMeasureValue none 0 = some 0 ∧
    0 ≤ getMeasureIndexOfRole (groupedOf missingLowCat) "Low" ∧
    0 ≤ getMeasureIndexOfRole (groupedOf missingLowCat) "High" ∧
    parseToDataPoints missingLowCat =
      Except.error "TypeError: Cannot read source of undefined" :=
  ⟨rfl, by decide, by decide, by rfl⟩

/-- C8: the margin-adjusted viewport subtracts the left and right margins
from the width and the top and bottom margins from the height, the
geometry is valid exactly when both adjusted dimensions are strictly
positive, and an invalid geometry makes render return without drawing. -/
theorem claim8_geometry_validity (vp : IViewport) (vm : Option DifferenceAreaChartViewModel) :
    ((chartGeometry vp).getViewport.width = vp.width - chartMargin.left - chartMargin.right)
  ∧ ((chartGeometry vp).getViewport.height = vp.height - chartMargin.top - chartMargin.bottom)
  ∧ ((chartGeometry vp).isValid = true ↔
      0 < (chartGeometry vp).getViewport.width ∧ 0 < (chartGeometry vp).getViewport.height)
  ∧ ((chartGeometry vp).isValid = false →
      render vm (chartGeometry vp) ≠ RenderOutcome.drawn) := by
  refine ⟨rfl, rfl, ?_, ?_⟩
  · simp [Geometry.isValid]
  · intro h
    cases vm with
    | none => simp [render]
    | some v => simp [render, h]

/-- C8 witness: a 10 by 10 viewport leaves no space after the fixed
margins, the geometry is invalid, and render draws nothing. -/
theorem claim8_witness :
    (chartGeometry { width := 10, height := 10 }).isValid = false ∧
    render none (chartGeometry { width := 10, height := 10 }) ≠ RenderOutcome.drawn := by
  have hinv : (chartGeometry { width := 10, height := 10 }).isValid = false := by
    simp only [Geometry.isValid, chartGeometry, chartMargin, Geometry.getViewport,
      Bool.and_eq_false_iff, decide_eq_false_iff_not]
    norm_num
  exact ⟨hinv, (claim8_geometry_validity { width := 10, height := 10 } none).2.2.2 hinv⟩

/-- C9: the hover lookup indexes the point array at the rounded domain
position, and a rounded position outside the index range yields no point,
no hover line and no tooltip payload. -/
theorem claim9_hover_lookup (x : ℚ) (vm : DifferenceAreaChartViewModel) :
    (0 ≤ jsRound x → getClosestDataPoint x vm.data = vm.data.get? (jsRound x).toNat)
  ∧ ((jsRound x < 0 ∨ (vm.data.length : ℤ) ≤ jsRound x) →
      getClosestDataPoint x vm.data = none ∧ tooltipInfoDelegate x vm = (false, none)) := by
  constructor
  · intro h
    unfold getClosestDataPoint
    rw [if_neg (by omega)]
  · intro h
    have hnone : getClosestDataPoint x vm.data = none := by
      unfold getClosestDataPoint
      by_cases hneg : jsRound x < 0
      · rw [if_pos hneg]
      · rw [if_neg hneg]
        apply List.get?_eq_none.mpr
        rcases h with h | h
        · omega
        · omega
    refine ⟨hnone, ?_⟩
    unfold tooltipInfoDelegate
    rw [hnone]

/-- C9 witness: position 5 over an empty point sequence rounds to index 5,
out of range, so the lookup yields nothing and the tooltip is
suppressed. -/
theorem claim9_witness :
    getClosestDataPoint 5 emptyRolesViewModel.data = none ∧
    tooltipInfoDelegate 5 emptyRolesViewModel = (false, none) := by
  have hr : jsRound 5 = 5 := by
    rw [jsRound, Int.floor_eq_iff]
    norm_num
  exact (claim9_hover_lookup 5 emptyRolesViewModel).2
    (Or.inr (by rw [hr]; simp [emptyRolesViewModel]))

/-- The resolved outline visibility as a function of the stored property
value: the stored boolean when present, the default otherwise. -/
def resolveShowProp (l : Option PropVal) : Bool :=
  match l with
  | some (PropVal.boolean b) => b
  | _ => true

/-- The resolved outline stroke width as a function of the stored property
value. -/
def resolveSizeProp (l : Option PropVal) : ℚ :=
  match l with
  | some (PropVal.number q) => q
  | _ => 2

/-- The resolved high fill color as a function of the stored property
value. -/
def resolveHighColorProp (l : Option PropVal) : String :=
  match l with
  | some (PropVal.fill c) => c
  | _ => "Green"

/-- The resolved low fill color as a function of the stored property
value. -/
def resolveLowColorProp (l : Option PropVal) : String :=
  match l with
  | some (PropVal.fill c) => c
  | _ => "Red"

theorem resolvedSettings_show (dv : Option DataView) :
    (resolvedSettings dv).outline.showOutline =
      resolveShowProp (lookupProp dv "outline" "show") := by
  unfold resolvedSettings parseSettings lookupProp getValueBool resolveShowProp
  cases h : getObjectsFromDataView dv with
  | none => rfl
  | some objs =>
    simp only [h]
    cases hl : lookupObjectProp objs "outline" "show" with
    | none => rfl
    | some v => cases v <;> rfl

theorem resolvedSettings_size (dv : Option DataView) :
    (resolvedSettings dv).outline.size =
      resolveSizeProp (lookupProp dv "outline" "size") := by
  unfold resolvedSettings parseSettings lookupProp getValueNum resolveSizeProp
  cases h : getObjectsFromDataView dv with
  | none => rfl
  | some objs =>
    simp only [h]
    cases hl : lookupObjectProp objs "outline" "size" with
    | none => rfl
    | some v => cases v <;> rfl

theorem resolvedSettings_high (dv : Option DataView) :
    (resolvedSettings dv).colors.highColor =
      resolveHighColorProp (lookupProp dv "colors" "highColor") := by
  unfold resolvedSettings parseSettings lookupProp getFillColor resolveHighColorProp
  cases h : getObjectsFromDataView dv with
  | none => rfl
  | some objs =>
    simp only [h]
    cases hl : lookupObjectProp objs "colors" "highColor" with
    | none => rfl
    | some v => cases v <;> rfl

theorem resolvedSettings_low (dv : Option DataView) :
    (resolvedSettings dv).colors.lowColor =
      resolveLowColorProp (lookupProp dv "colors" "lowColor") := by
  unfold resolvedSettings parseSettings lookupProp getFillColor resolveLowColorProp
  cases h : getObjectsFromDataView dv with
  | none => rfl
  | some objs =>
    simp only [h]
    cases hl : lookupObjectProp objs "colors" "lowColor" with
    | none => rfl
    | some v => cases v <;> rfl

theorem chartSettings_ext (s1 s2 : DifferenceAreaChartSettings)
    (h1 : s1.outline.showOutline = s2.outline.showOutline)
    (h2 : s1.outline.size = s2.outline.size)
    (h3 : s1.colors.highColor = s2.colors.highColor)
    (h4 : s1.colors.lowColor = s2.colors.lowColor) : s1 = s2 := by
  obtain ⟨⟨a1, b1⟩, ⟨c1, d1⟩⟩ := s1
  obtain ⟨⟨a2, b2⟩, ⟨c2, d2⟩⟩ := s2
  simp only at h1 h2 h3 h4
  subst h1; subst h2; subst h3; subst h4
  rfl

/-- C6: settings resolution starts from the fixed defaults (outline shown,
stroke width 2, high fill Green, low fill Red); each recognized property
resolves to the stored value when one is present and to the default
otherwise; and any two dataViews whose stores agree on the four recognized
properties resolve to the same settings, so unrecognized properties never
affect the result. -/
theorem claim6_settings_resolution (dv : Option DataView) :
    parseSettings dv = some (resolvedSettings dv)
  ∧ (∀ b, lookupProp dv "outline" "show" = some (PropVal.boolean b) →
      (resolvedSettings dv).outline.showOutline = b)
  ∧ (lookupProp dv "outline" "show" = none →
      (resolvedSettings dv).outline.showOutline = true)
  ∧ (∀ q, lookupProp dv "outline" "size" = some (PropVal.number q) →
      (resolvedSettings dv).outline.size = q)
  ∧ (lookupProp dv "outline" "size" = none → (resolvedSettings dv).outline.size = 2)
  ∧ (∀ s, lookupProp dv "colors" "highColor" = some (PropVal.fill s) →
      (resolvedSettings dv).colors.highColor = s)
  ∧ (lookupProp dv "colors" "highColor" = none →
      (resolvedSettings dv).colors.highColor = "Green")
  ∧ (∀ s, lookupProp dv "colors" "lowColor" = some (PropVal.fill s) →
      (resolvedSettings dv).colors.lowColor = s)
  ∧ (lookupProp dv "colors" "lowColor" = none →
      (resolvedSettings dv).colors.lowColor = "Red")
  ∧ (∀ dv2 : Option DataView,
      lookupProp dv2 "outline" "show" = lookupProp dv "outline" "show" →
      lookupProp dv2 "outline" "size" = lookupProp dv "outline" "size" →
      lookupProp dv2 "colors" "highColor" = lookupProp dv "colors" "highColor" →
      lookupProp dv2 "colors" "lowColor" = lookupProp dv "colors" "lowColor" →
      resolvedSettings dv2 = resolvedSettings dv) := by
  refine ⟨parseSettings_eq dv, ?_, ?_, ?_, ?_, ?_, ?_, ?_, ?_, ?_⟩
  · intro b h; rw [resolvedSettings_show, h]; rfl
  · intro h; rw [resolvedSettings_show, h]; rfl
  · intro q h; rw [resolvedSettings_size, h]; rfl
  · intro h; rw [resolvedSettings_size, h]; rfl
  · intro s h; rw [resolvedSettings_high, h]; rfl
  · intro h; rw [resolvedSettings_high, h]; rfl
  · intro s h; rw [resolvedSettings_low, h]; rfl
  · intro h; rw [resolvedSettings_low, h]; rfl
  · intro dv2 e1 e2 e3 e4
    apply chartSettings_ext
    · rw [resolvedSettings_show, resolvedSettings_show, e1]
    · rw [resolvedSettings_size, resolvedSettings_size, e2]
    · rw [resolvedSettings_high, resolvedSettings_high, e3]
    · rw [resolvedSettings_low, resolvedSettings_low, e4]

/-- A dataView carrying a property store that overrides the outline
visibility and the high fill color and adds an unrecognized property. -/
def overridesDataView : DataView :=
  { categorical := some sampleCat
    metadata := some
      { objects := some
          [("outline", "show", PropVal.boolean false),
           ("colors", "highColor", PropVal.fill "Blue"),
           ("misc", "unknown", PropVal.number 7)] } }

/-- C6 witness: with the override store, show resolves to the stored
false, highColor to the stored Blue, and the untouched size and lowColor
keep their defaults. -/
theorem claim6_witness :
    (resolvedSettings (some overridesDataView)).outline.showOutline = false ∧
    (resolvedSettings (some overridesDataView)).colors.highColor = "Blue" ∧
    (resolvedSettings (some overridesDataView)).outline.size = 2 ∧
    (resolvedSettings (some overridesDataView)).colors.lowColor = "Red" :=
  ⟨(claim6_settings_resolution (some overridesDataView)).2.1 false (by decide),
   (claim6_settings_resolution (some overridesDataView)).2.2.2.2.2.1 "Blue" (by decide),
   (claim6_settings_resolution (some overridesDataView)).2.2.2.2.1 (by decide),
   (claim6_settings_resolution (some overridesDataView)).2.2.2.2.2.2.2.2.1 (by decide)⟩

/-- C7: after a successful build, enumerating outline returns exactly the
outline show and size resolved in that build, enumerating colors returns
exactly the low and high fill colors resolved in that build, any other
object name returns nothing, and enumeration returns nothing when no view
model exists. -/
theorem claim7_enumerate_round_trip (dv : Option DataView)
    (vm : DifferenceAreaChartViewModel)
    (hbuild : convertToViewModel dv = Except.ok (some vm)) (name : String) :
    enumerateObjectInstances (some vm) "outline" =
      some [{ objectName := "outline"
              properties :=
                [("show", PropVal.boolean ((resolvedSettings dv).outline.showOutline)),
                 ("size", PropVal.number ((resolvedSettings dv).outline.size))] }]
  ∧ enumerateObjectInstances (some vm) "colors" =
      some [{ objectName := "colors"
              properties :=
                [("lowColor", PropVal.strv ((resolvedSettings dv).colors.lowColor)),
                 ("highColor", PropVal.strv ((resolvedSettings dv).colors.highColor))] }]
  ∧ (name ≠ "outline" → name ≠ "colors" → enumerateObjectInstances (some vm) name = none)
  ∧ enumerateObjectInstances none name = none := by
  have hs := viewModel_settings_eq dv vm hbuild
  refine ⟨?_, ?_, ?_, rfl⟩
  · simp [enumerateObjectInstances, enumerateOutlineOptions, hs]
  · simp [enumerateObjectInstances, enumerateColorOptions, hs]
  · intro h1 h2
    simp [enumerateObjectInstances, h1, h2]

/-- C7 witness: the view model built from the empty-roles dataView
enumerates the default outline values and returns nothing for an unknown
object name. -/
theorem claim7_witness :
    enumerateObjectInstances (some emptyRolesViewModel) "outline" =
      some [{ objectName := "outline"
              properties :=
                [("show", PropVal.boolean true), ("size", PropVal.number 2)] }] ∧
    enumerateObjectInstances (some emptyRolesViewModel) "misc" = none := by
  have h := claim7_enumerate_round_trip (some emptyRolesDataView) emptyRolesViewModel
    (by rfl) "misc"
  exact ⟨h.1, h.2.2.1 (by decide) (by decide)⟩

/-- C1 counterexample: a structurally valid dataView carrying both the Low
and the High role but two series groups; the loop bound of the second
series iteration reads the undefined categories entry at index 1 and
throws, so the build produces no data sequence at all, against the claim
that it always has exactly N indexed points. -/
theorem claim1_counterexample :
    isDataViewValid (some twoGroupDataView) = true ∧
    0 ≤ getMeasureIndexOfRole (groupedOf twoGroupCat) "Low" ∧
    0 ≤ getMeasureIndexOfRole (groupedOf twoGroupCat) "High" ∧
    parseToDataPoints twoGroupCat =
      Except.error "TypeError: Cannot read values of undefined" ∧
    (parseToDataPoints twoGroupCat).isOk = false :=
  ⟨by decide, by decide, by decide, by rfl, by rfl⟩

/-- C4 counterexample: the same structurally valid two-group dataView makes
convertToViewModel propagate the point-parsing TypeError, so a valid
dataset does not always yield a view model. -/
theorem claim4_counterexample :
    isDataViewValid (some twoGroupDataView) = true ∧
    convertToViewModel (some twoGroupDataView) =
      Except.error "TypeError: Cannot read values of undefined" :=
  ⟨by decide, by rfl⟩

/-- C4 amended: the view model is absent exactly when the dataset is
structurally invalid, and a structurally valid dataset yields a view model
whenever point parsing does not fault, with the parsed points as its data
sequence. -/
theorem claim4_amended_null_iff_invalid (dv : Option DataView) :
    (convertToViewModel dv = Except.ok none ↔ isDataViewValid dv = false)
  ∧ (∀ (d : DataView) (cat : DataViewCategorical)
        (pts : List DifferenceAreaChartDataPoint),
      dv = some d → d.categorical = some cat →
      isDataViewValid dv = true → parseToDataPoints cat = Except.ok pts →
      ∃ vm, convertToViewModel dv = Except.ok (some vm) ∧ vm.data = pts) := by
  refine ⟨convert_ok_none_iff dv, ?_⟩
  rintro d cat pts rfl hcat hv hpts
  obtain ⟨cat2, cs, c0, hcat2, hcs, hc0, _, _⟩ := isDataViewValid_elim d hv
  rw [hcat] at hcat2
  obtain rfl : cat = cat2 := by injection hcat2
  rw [convertToViewModel_eq_valid d cat cs c0 hv hcat hcs hc0]
  simp only [hpts]
  exact ⟨_, rfl, rfl⟩

/-- C4 amended witness: the empty-roles dataView is valid, point parsing
succeeds with the empty sequence, and a view model with empty data is
built; the absence equivalence is instantiated at the same input. -/
theorem claim4_amended_witness :
    (convertToViewModel (some emptyRolesDataView) = Except.ok none ↔
      isDataViewValid (some emptyRolesDataView) = false) ∧
    ∃ vm, convertToViewModel (some emptyRolesDataView) = Except.ok (some vm) ∧
      vm.data = [] := by
  refine ⟨(claim4_amended_null_iff_invalid (some emptyRolesDataView)).1, ?_⟩
  exact (claim4_amended_null_iff_invalid (some emptyRolesDataView)).2
    emptyRolesDataView noRolesCat [] rfl rfl (by decide) (by rfl)

theorem findRoleIdx_nonneg_elim (cols : List DataViewValueColumn) (role : String) :
    0 ≤ findRoleIdx cols role →
    ∃ col src, cols.get? (findRoleIdx cols role).toNat = some col ∧
      col.source = some src := by
  induction cols with
  | nil =>
    intro h
    simp only [findRoleIdx] at h
    omega
  | cons col rest ih =>
    intro h
    by_cases hr : hasRole col role = true
    · refine ⟨col, ?_⟩
      have hsrc : ∃ s, col.source = some s := by
        unfold hasRole at hr
        cases hs : col.source with
        | none => rw [hs] at hr; simp at hr
        | some s => exact ⟨s, rfl⟩
      obtain ⟨s, hs⟩ := hsrc
      refine ⟨s, ?_, hs⟩
      simp only [findRoleIdx, hr, if_true]
      rfl
    · have hrf : hasRole col role = false := by simpa using hr
      simp only [findRoleIdx, hrf, Bool.false_eq_true, if_false] at h ⊢
      by_cases hneg : findRoleIdx rest role < 0
      · rw [if_pos hneg] at h; omega
      · rw [if_neg hneg] at h ⊢
        have h0 : 0 ≤ findRoleIdx rest role := by omega
        obtain ⟨c2, s2, hget, hsrc2⟩ := ih h0
        refine ⟨c2, s2, ?_, hsrc2⟩
        have htn : (findRoleIdx rest role + 1).toNat =
            (findRoleIdx rest role).toNat + 1 := by omega
        rw [htn]
        simpa using hget

theorem getMeasureIndexOfRole_single_elim (g : DataViewValueColumnGroup) (role : String)
    (h : 0 ≤ getMeasureIndexOfRole [g] role) :
    ∃ cols col src, g.values = some cols ∧
      cols.get? (getMeasureIndexOfRole [g] role).toNat = some col ∧
      col.source = some src := by
  simp only [getMeasureIndexOfRole] at h ⊢
  cases hv : g.values with
  | none => simp only [hv] at h; omega
  | some cols =>
    simp only [hv] at h ⊢
    obtain ⟨col, src, h1, h2⟩ := findRoleIdx_nonneg_elim cols role h
    exact ⟨cols, col, src, rfl, h1, h2⟩

theorem mkDataPoint_ok (c : DataViewCategorical) (catVar : DataViewCategoryColumn)
    (cols : List DataViewValueColumn) (lowIdx highIdx : ℕ)
    (cs : List DataViewCategoryColumn) (catVals : List (Option String))
    (lm : DataViewValueColumn) (src : DataViewMetadataColumn)
    (hcats : c.categories = some cs) (hcv : catVar.values = some catVals)
    (hlow : cols.get? lowIdx = some lm) (hsrc : lm.source = some src) (i : ℕ) :
    ∃ p, mkDataPoint c catVar (some cols) lowIdx highIdx i = Except.ok p ∧
      p.categoryIndex = i := by
  unfold mkDataPoint
  simp only [hcv, hcats, hlow, hsrc]
  exact ⟨_, rfl, rfl⟩

theorem pointsFrom_ok (f : ℕ → Except String DifferenceAreaChartDataPoint)
    (hf : ∀ j, ∃ p, f j = Except.ok p ∧ p.categoryIndex = j) :
    ∀ n i, ∃ ps, pointsFrom f i n = Except.ok ps ∧ ps.length = n ∧
      ∀ k p, ps.get? k = some p → p.categoryIndex = i + k := by
  intro n
  induction n with
  | zero =>
    intro i
    exact ⟨[], rfl, rfl, fun k p hk => by simp at hk⟩
  | succ m ih =>
    intro i
    obtain ⟨p, hp, hpi⟩ := hf i
    obtain ⟨ps, hps, hlen, hidx⟩ := ih (i + 1)
    refine ⟨p :: ps, by simp [pointsFrom, hp, hps], by simp [hlen], ?_⟩
    intro k q hk
    cases k with
    | zero =>
      simp only [List.get?_cons_zero, Option.some.injEq] at hk
      rw [← hk, hpi]
      omega
    | succ k2 =>
      simp only [List.get?_cons_succ] at hk
      have := hidx k2 q hk
      omega

theorem seriesLoop_single (c : DataViewCategorical) (catVar : DataViewCategoryColumn)
    (lowIdx highIdx : ℕ) (g : DataViewValueColumnGroup) (len : ℕ)
    (hlen : seriesCatLen c 0 = Except.ok len)
    (ps : List DifferenceAreaChartDataPoint)
    (hps : pointsFrom (mkDataPoint c catVar g.values lowIdx highIdx) 0 len =
      Except.ok ps) :
    seriesLoop c catVar lowIdx highIdx 0 [g] = Except.ok ps := by
  simp [seriesLoop, hlen, hps]

/-- C1 amended: for a structurally well-formed categorical section with N
category values whose grouped values consist of exactly one series group
carrying both the Low and the High role, the parsed data sequence has
exactly N points and the point at every position i has categoryIndex i.
The single-group hypothesis is forced by the counterexample: with a second
series group the loop bound reads an undefined categories entry. -/
theorem claim1_amended_points_indexed (c : DataViewCategorical)
    (c0 : DataViewCategoryColumn) (rest : List DataViewCategoryColumn)
    (catVals : List (Option String)) (g : DataViewValueColumnGroup)
    (hcats : c.categories = some (c0 :: rest))
    (hvals : c0.values = some catVals)
    (hg : groupedOf c = [g])
    (hlow : 0 ≤ getMeasureIndexOfRole (groupedOf c) "Low")
    (hhigh : 0 ≤ getMeasureIndexOfRole (groupedOf c) "High") :
    ∃ pts, parseToDataPoints c = Except.ok pts ∧ pts.length = catVals.length ∧
      ∀ i p, pts.get? i = some p → p.categoryIndex = i := by
  have hlow1 : 0 ≤ getMeasureIndexOfRole [g] "Low" := by rw [← hg]; exact hlow
  obtain ⟨cols, lm, src, hgv, hlm, hsrc⟩ :=
    getMeasureIndexOfRole_single_elim g "Low" hlow1
  have hcatVar : categoriesVarOf c = c0 := by simp [categoriesVarOf, hcats]
  have hlen : seriesCatLen c 0 = Except.ok catVals.length := by
    simp [seriesCatLen, hcats, hvals]
  have hpoint : ∀ j, ∃ p,
      mkDataPoint c (categoriesVarOf c) g.values
        (getMeasureIndexOfRole [g] "Low").toNat
        (getMeasureIndexOfRole [g] "High").toNat j = Except.ok p ∧
      p.categoryIndex = j := by
    intro j
    rw [hgv, hcatVar]
    exact mkDataPoint_ok c c0 cols _ _ (c0 :: rest) catVals lm src
      hcats hvals hlm hsrc j
  obtain ⟨ps, hps, hplen, hpidx⟩ := pointsFrom_ok _ hpoint catVals.length 0
  refine ⟨ps, ?_, hplen, fun i p hp => by simpa using hpidx i p hp⟩
  unfold parseToDataPoints
  rw [if_pos ⟨hlow, hhigh⟩, hg]
  exact seriesLoop_single c (categoriesVarOf c) _ _ g catVals.length hlen ps hps

/-- C1 amended witness: the two-category single-group sample dataset parses
to exactly two points indexed 0 and 1. -/
theorem claim1_amended_witness :
    ∃ pts, parseToDataPoints sampleCat = Except.ok pts ∧ pts.length = 2 ∧
      ∀ i p, pts.get? i = some p → p.categoryIndex = i := by
  have h := claim1_amended_points_indexed sampleCat sampleCategoryColumn []
    [some "A", some "B"] sampleGroup rfl rfl rfl (by decide) (by decide)
  exact h

end DifferenceAreaChart
